import Mathlib

/-!
Shallow embedding of `src/fastrag/agents/create_agent.py` (fastRAG agent
construction module), together with theorems checking the natural-language
specification against it.

Modelling conventions:
* Python values flowing through tool kwargs, tool results, history records and
  conversation turns are represented by the inductive `PyValue`; Python dicts
  with string keys are association lists in insertion order.
* Stateful Python methods become explicit state passing: a method that mutates
  `self` and prints returns the new object together with the list of emitted
  debug lines (`DebugLine` abstracts the `print` payloads).
* Exceptions become `Except`: a raised exception is an `Except.error`.
* External collaborators (HuggingFace tokenizer loading, the dynamically
  imported generator class, the `TOOLS_FACTORY` tool constructors) are taken as
  function parameters; the data the module itself builds from them is modelled
  structurally.
-/

namespace FastRAG

/-- Python values as they occur in this module: strings, integers, `None`,
and string-keyed dicts (association lists in insertion order). -/
inductive PyValue where
  | str : String → PyValue
  | int : Int → PyValue
  | none : PyValue
  | dict : List (String × PyValue) → PyValue

/-- Keyword arguments of a tool invocation: a Python `**kwargs` dict. -/
def Kwargs : Type := List (String × PyValue)

/-- Lookup of a key in a Python dict value; `Option.none` when the key is
absent or the value is not a dict. -/
def dictGet : PyValue → String → Option PyValue
  | PyValue.dict ps, k => (ps.find? (fun p => p.1 == k)).map (fun p => p.2)
  | _, _ => Option.none

/-- Python truthiness of an optional string (as in `if not tokenizer.pad_token`
and `if custom_instructions`): `None` and the empty string are falsy. -/
def pyTruthyStrOpt : Option String → Bool
  | Option.none => false
  | Option.some s => s != ""

/-- The module-level global `DEBUG_MODE = True` (line 12 of the source). -/
def DEBUG_MODE : Bool := true

/-- A tokenizer as this module observes it: the HuggingFace object is opaque
except for the checkpoint it was loaded from and its pad/eos special tokens
(absent tokens are `Option.none`, matching HuggingFace returning `None`). -/
structure Tokenizer where
  checkpoint : String
  pad_token : Option String
  eos_token : Option String

/-- The `generator_kwargs` mapping of the chat-model configuration: the code
reads its `"model"` entry; everything else is opaque extra data. -/
structure GeneratorKwargs where
  model : String
  extra : List (String × PyValue)

/-- The `chat_model` section of the conversation config: a dotted class path
and the keyword arguments for that class. -/
structure ChatModelConfig where
  generator_class : String
  generator_kwargs : GeneratorKwargs

/-- The generator object built by `get_generator`: constructing
`generator_class(**generator_kwargs)` is modelled by recording the resolved
class path and the exact kwargs passed; `warm_up()` sets `warmed_up`. -/
structure Generator where
  generator_class : String
  kwargs : GeneratorKwargs
  warmed_up : Bool

/-- A `StopWordsByTextCriteria` object as constructed on line 100 of the
source (its internals live outside this module). -/
structure StopWordsByTextCriteria where
  tokenizer : Tokenizer
  stop_words : List String
  device : String

/-- A `transformers.StoppingCriteriaList` holding such criteria. -/
def StoppingCriteriaList : Type := List StopWordsByTextCriteria

/-- One entry of a tool configuration list: `tool_config["type"]` and
`tool_config["params"]`. -/
structure ToolConfig where
  type : String
  params : List (String × PyValue)

/-- The conversation configuration document after YAML loading: a
`chat_model` section and an optional `tools` list (the code guards with
`if "tools" in conversation_config`). -/
structure ConversationConfig where
  chat_model : ChatModelConfig
  tools : Option (List ToolConfig)

/-- A registered tool object: the base `ToolsManager` looks tools up by name
and invokes them with kwargs; a raising capability is an `Except.error`
carrying the exception text. -/
structure Tool where
  name : String
  invoke : Kwargs → Except String PyValue

/-- One line of diagnostic output. The Python code prints f-strings; this
abstraction records which diagnostic was emitted and with which payload,
since no claim depends on the rendered text. -/
inductive DebugLine where
  | query : String → DebugLine
  | metadata : Option (List (String × PyValue)) → DebugLine
  | modelConfig : ChatModelConfig → DebugLine
  | loadedConfig : ConversationConfig → DebugLine
  | toolExecutionError : String → DebugLine
  | toolInputs : Kwargs → DebugLine

/-- The state of an `EnhancedConversationMemory` object (lines 67-84).
`super().__init__(generator)` stores the generator in the base class (the base
`ConversationMemory` is outside this module); the subclass adds the
`tool_history` list of turns, `user_data` and `system_configs` dicts. -/
structure EnhancedConversationMemory where
  generator : Generator
  tool_history : List PyValue
  user_data : List (String × PyValue)
  system_configs : List (String × PyValue)

/-- `EnhancedConversationMemory.__init__(generator)`: empty histories. -/
def EnhancedConversationMemory.init (generator : Generator) : EnhancedConversationMemory :=
  { generator := generator, tool_history := [], user_data := [], system_configs := [] }

/-- `EnhancedConversationMemory.add_interaction(query, response, metadata)`
(lines 74-84): optionally prints the query and metadata under `DEBUG_MODE`,
then appends to `self.tool_history` the dict
`{"query": query, "response": response, "metadata": metadata,
"system_config": self.system_configs}`. Returns the new state and the
emitted debug lines. -/
def EnhancedConversationMemory.add_interaction (m : EnhancedConversationMemory)
    (query : String) (response : String) (metadata : Option (List (String × PyValue))) :
    EnhancedConversationMemory × List DebugLine :=
  ({ m with tool_history := m.tool_history ++
      [PyValue.dict [("query", PyValue.str query), ("response", PyValue.str response),
                     ("metadata", match metadata with
                                  | Option.none => PyValue.none
                                  | Option.some d => PyValue.dict d),
                     ("system_config", PyValue.dict m.system_configs)]] },
   if DEBUG_MODE then [DebugLine.query query, DebugLine.metadata metadata] else [])

/-- Iterated `add_interaction` over a list of (query, response, metadata)
triples, discarding the printed output. -/
def EnhancedConversationMemory.add_interactions (m : EnhancedConversationMemory) :
    List (String × String × Option (List (String × PyValue))) → EnhancedConversationMemory
  | [] => m
  | it :: rest =>
      EnhancedConversationMemory.add_interactions
        (m.add_interaction it.1 it.2.1 it.2.2).1 rest

/-- The turn dict appended for one interaction, given the memory's
`system_configs` at the time of the call. -/
def interactionTurn (system_configs : List (String × PyValue))
    (it : String × String × Option (List (String × PyValue))) : PyValue :=
  PyValue.dict [("query", PyValue.str it.1), ("response", PyValue.str it.2.1),
                ("metadata", match it.2.2 with
                             | Option.none => PyValue.none
                             | Option.some d => PyValue.dict d),
                ("system_config", PyValue.dict system_configs)]

/-- The stop-word list built on line 99 of `get_generator`. -/
def get_generator_stop_word_list : List String := ["Observation:", "<|eot_id|>", "<|end|>"]

/-- The `StoppingCriteriaList([sw])` built on lines 100-101 of
`get_generator` from the (pad-fixed) tokenizer. -/
def get_generator_stopping_criteria (tokenizer : Tokenizer) : StoppingCriteriaList :=
  [{ tokenizer := tokenizer, stop_words := get_generator_stop_word_list, device := "cpu" }]

/-- `get_generator(chat_model_config)` (lines 86-110). The dynamic
`__import__` walk resolves `generator_class` externally and is modelled by
recording the class path; `AutoTokenizer.from_pretrained` is the parameter
`from_pretrained`. The function loads the tokenizer for
`generator_kwargs["model"]`, sets `pad_token` to `eos_token` when the pad
token is falsy, builds the stopping-criteria list (bound to a local that is
never used afterwards), optionally prints the model config, constructs the
generator from `generator_kwargs` alone, warms it up, and returns the pair
`(generator, tokenizer)` together with the emitted debug lines. -/
def get_generator (chat_model_config : ChatModelConfig)
    (from_pretrained : String → Tokenizer) :
    (Generator × Tokenizer) × List DebugLine :=
  let tokenizer0 := from_pretrained chat_model_config.generator_kwargs.model
  let tokenizer := if pyTruthyStrOpt tokenizer0.pad_token then tokenizer0
                   else { tokenizer0 with pad_token := tokenizer0.eos_token }
  let _stopping_criteria_list := get_generator_stopping_criteria tokenizer
  let dbg := if DEBUG_MODE then [DebugLine.modelConfig chat_model_config] else []
  let generator : Generator :=
    { generator_class := chat_model_config.generator_class,
      kwargs := chat_model_config.generator_kwargs,
      warmed_up := true }
  ((generator, tokenizer), dbg)

/-- Exceptions crossing the tool-dispatch boundary. -/
inductive PyErr where
  | unknownTool : String → PyErr
  | toolError : String → PyErr

/-- `str(e)` for such an exception. The base class's unknown-tool message is
outside this module; only the fact that it is some string matters here. -/
def PyErr.toStr : PyErr → String
  | PyErr.unknownTool nm => "Tool " ++ nm ++ " not found"
  | PyErr.toolError msg => msg

/-- Modelled from the spec: `fastrag.agents.base.ToolsManager.execute_tool`
is not under src/. Per spec section 4.2, dispatch "looks up by name; fails
with UnknownToolError if absent", and on a known tool "invokes its capability
with kwargs", propagating any exception the capability raises. -/
def ToolsManager.execute_tool (tools : List Tool) (tool_name : String)
    (kwargs : Kwargs) : Except PyErr PyValue :=
  match tools.find? (fun t => t.name == tool_name) with
  | Option.none => Except.error (PyErr.unknownTool tool_name)
  | Option.some t =>
      match t.invoke kwargs with
      | Except.ok v => Except.ok v
      | Except.error msg => Except.error (PyErr.toolError msg)

/-- The state of an `EnhancedToolsManager` (lines 112-117): the registered
tools held by the base class, the `debug_mode` flag, and the
`tool_execution_history` list of record dicts. -/
structure EnhancedToolsManager where
  tools : List Tool
  debug_mode : Bool
  tool_execution_history : List PyValue

/-- `EnhancedToolsManager.execute_tool(tool_name, **kwargs)` (lines 119-134):
calls the base dispatch; on success appends the dict
`{"tool": tool_name, "inputs": kwargs, "result": result, "status": "success"}`
to `self.tool_execution_history` and returns the result; on exception it
optionally prints the error and the inputs under `debug_mode` and re-raises,
leaving the manager unchanged. Returns (outcome, new state, debug lines). -/
def EnhancedToolsManager.execute_tool (m : EnhancedToolsManager)
    (tool_name : String) (kwargs : Kwargs) :
    Except PyErr PyValue × EnhancedToolsManager × List DebugLine :=
  match ToolsManager.execute_tool m.tools tool_name kwargs with
  | Except.ok result =>
      (Except.ok result,
       { m with tool_execution_history := m.tool_execution_history ++
           [PyValue.dict [("tool", PyValue.str tool_name),
                          ("inputs", PyValue.dict kwargs),
                          ("result", result),
                          ("status", PyValue.str "success")]] },
       [])
  | Except.error e =>
      (Except.error e, m,
       if m.debug_mode then [DebugLine.toolExecutionError (PyErr.toStr e),
                             DebugLine.toolInputs kwargs]
       else [])

/-- Python dict assignment `d[k] = v` on a string-keyed dict: replace the
value in place when the key is present (keeping the original key object and
its insertion position), append a new entry otherwise. -/
def dictInsert {α : Type} : List (String × α) → String → α → List (String × α)
  | [], k, v => [(k, v)]
  | (k', v') :: rest, k, v =>
      if k' == k then (k', v) :: rest else (k', v') :: dictInsert rest k v

/-- Python dict lookup `d[k]` as an Option (first matching key). -/
def listLookup {α : Type} (d : List (String × α)) (k : String) : Option α :=
  (d.find? (fun p => p.1 == k)).map (fun p => p.2)

/-- The `tools_objects_map` construction loop of
`get_basic_conversation_pipeline` (lines 151-158): for each tool config,
construct `TOOLS_FACTORY[type](**params)` (the factory is external, taken as
a parameter) and assign it into the map under key `params["name"]`. A missing
`"name"` key raises KeyError; the model is restricted to string-valued names
(every configured tool name is a string). -/
def buildToolsObjectsMap (factory : String → List (String × PyValue) → Tool) :
    List ToolConfig → List (String × Tool) → Except String (List (String × Tool))
  | [], acc => Except.ok acc
  | tc :: rest, acc =>
      match listLookup tc.params "name" with
      | Option.some (PyValue.str nm) =>
          buildToolsObjectsMap factory rest (dictInsert acc nm (factory tc.type tc.params))
      | Option.some _ => Except.error "TypeError: tool name is not a string"
      | Option.none => Except.error "KeyError: name"

/-- `get_basic_conversation_pipeline(args)` (lines 136-158) after the external
YAML load has produced `conversation_config`: optionally prints the loaded
config, builds the generator and tokenizer via `get_generator`, then builds
the tool-object map when a `tools` section is present. -/
def get_basic_conversation_pipeline (conversation_config : ConversationConfig)
    (from_pretrained : String → Tokenizer)
    (factory : String → List (String × PyValue) → Tool) :
    Except String ((Generator × Tokenizer) × List (String × Tool)) × List DebugLine :=
  let dbg0 := if DEBUG_MODE then [DebugLine.loadedConfig conversation_config] else []
  let gt := get_generator conversation_config.chat_model from_pretrained
  let dbg := dbg0 ++ gt.2
  match conversation_config.tools with
  | Option.none => (Except.ok (gt.1, []), dbg)
  | Option.some tool_configs =>
      match buildToolsObjectsMap factory tool_configs [] with
      | Except.ok m => (Except.ok (gt.1, m), dbg)
      | Except.error e => (Except.error e, dbg)

/-- The opening-brace character, written by code point to keep brace pairing
in source text unambiguous. -/
def lbrace : Char := Char.ofNat 123

/-- The closing-brace character. -/
def rbrace : Char := Char.ofNat 125

/-- The key of a replacement field: Python cuts the field at a conversion
(`!`) or a format spec (`:`). Attribute/index access inside field names does
not occur in this module's templates and is not modelled. -/
def pyFieldKey (inner : List Char) : String :=
  String.mk (inner.takeWhile (fun c => c != ':' && c != '!'))

/-- `revAppend l r` is `l.reverse ++ r`, written with `List.rec` directly so
that concrete runs of the formatter below stay within the kernel's reduction
depth on template-sized inputs. -/
def revAppend (l : List Char) : List Char → List Char :=
  List.rec (motive := fun _ => List Char → List Char)
    (fun r => r) (fun a _ ih r => ih (a :: r)) l

/-- One pass of Python `str.format` over a character list, accumulating the
output in reverse and driven by fuel (the fuel is above the character count
at every call site, and every step consumes at least one character, so the
fuel branch is unreachable there). Doubled braces become literal braces; a
replacement field is substituted from `args`, raising KeyError when the key
is missing; an unbalanced brace raises ValueError. Auto-numbered fields take
positional arguments in Python; none are ever passed in this module, so such
a field fails here (as it does in Python) with a lookup error. -/
def pyFormatAux (args : List (String × String)) : Nat → List Char → List Char → Except String (List Char)
  | _, acc, [] => Except.ok (revAppend acc [])
  | 0, _, _ :: _ => Except.error "format: out of fuel"
  | Nat.succ fuel, acc, c :: rest =>
      if c == lbrace then
        match rest with
        | [] => Except.error "ValueError: single opening brace in format string"
        | c2 :: rest2 =>
            if c2 == lbrace then
              pyFormatAux args fuel (lbrace :: acc) rest2
            else
              let inner := rest.takeWhile (fun ch => ch != rbrace)
              match rest.dropWhile (fun ch => ch != rbrace) with
              | _ :: rest3 =>
                  match args.find? (fun p => p.1 == pyFieldKey inner) with
                  | Option.some p => pyFormatAux args fuel (revAppend p.2.data acc) rest3
                  | Option.none => Except.error ("KeyError: " ++ pyFieldKey inner)
              | [] => Except.error "ValueError: single opening brace in format string"
      else if c == rbrace then
        match rest with
        | c2 :: rest2 =>
            if c2 == rbrace then pyFormatAux args fuel (rbrace :: acc) rest2
            else Except.error "ValueError: single closing brace in format string"
        | [] => Except.error "ValueError: single closing brace in format string"
      else
        pyFormatAux args fuel (c :: acc) rest

/-- Python `s.format(**args)` restricted to the features these templates use. -/
def pyFormat (s : String) (args : List (String × String)) : Except String String :=
  (pyFormatAux args (s.data.length + 1) [] s.data).map String.mk

/-- The initial `AGENT_SYSTEM_ROLES[0]["content"]` template string
(lines 15-52 of the source), transcribed verbatim; braces are written by
code point. -/
def AGENT_SYSTEM_ROLES_content : String := "You are designed to help with a variety of tasks, from answering questions to providing summaries to other types of analyses.\n\n\x7bcustom_system_instructions\x7d\n\n## Tools\n\nYou have access to a wide variety of tools. You are responsible for using the tools in any sequence you deem appropriate to complete the task at hand.\nThis may require breaking the task into subtasks and using different tools to complete each subtask.\n\nPrevious conversation context:\n\x7bconversation_history\x7d\n\nYou have access to the following tools:\n\x7btool_names_with_descriptions\x7d\n\n## Output Format\n\nIf you lack information to answer, you MUST use a tool that can help you to get more information to answer the question, and use MUST use the following format:\n\n```\nThought: I should use a tool to help me answer the question.\nTool: [tool name if using a tool].\nTool Input: [the input to the tool, in a JSON format representing the kwargs (e.g. \x7b\x7b\"input\": \"hello world\"\x7d\x7d)].\nObservation: [tool response]\n```\n\nIf you have enough information to answer the question without using any more tools, you MUST finish with \"Final Answer:\" and respond in the following format:\n\n```\nThought: I can answer without using any more tools.\nFinal Answer: [your answer here]\n```\n"

/-- The `AGENT_CONVERSATION_BASE_ROLES[0]["content"]` template string
(lines 56-63 of the source). -/
def AGENT_CONVERSATION_BASE_ROLES_content : String := "\x7bquery\x7d\nContext: \x7bcontext\x7d\nPrevious tools used: \x7btool_history\x7d\nThought: "

/-- The mutable module-level template state: the Python globals
`AGENT_SYSTEM_ROLES` / `AGENT_ROLES` share the single mutable string
`AGENT_SYSTEM_ROLES[0]["content"]`, which is the only template the module
ever rewrites; the chat template is never reassigned. -/
structure AgentRolesState where
  system_content : String

/-- The template state at module import time. -/
def initialAgentRoles : AgentRolesState :=
  { system_content := AGENT_SYSTEM_ROLES_content }

/-- The `Agent` object constructed by `get_agent_conversation_pipeline`
(lines 173-178): its generator, the prompt templates it is handed (the
`AGENT_ROLES` contents at construction time), its memory, and its tools
manager. -/
structure ConversationalAgent where
  generator : Generator
  prompt_template_system : String
  prompt_template_chat : String
  memory : EnhancedConversationMemory
  tools_manager : EnhancedToolsManager

/-- `get_agent_conversation_pipeline(args, custom_instructions)`
(lines 160-180), with the module-level template state threaded explicitly:
runs the basic pipeline; then, when `custom_instructions` is truthy,
reassigns `AGENT_SYSTEM_ROLES[0]["content"]` to the result of
`.format(custom_system_instructions=..., conversation_history="\x7bconversation_history\x7d",
tool_names_with_descriptions="\x7btool_names_with_descriptions\x7d")` applied to the
CURRENT global content (a KeyError from `.format` propagates); finally builds
the tools manager (debug mode `DEBUG_MODE`), the memory, and the agent, whose
prompt templates are the post-mutation globals. Returns the outcome, the new
template state, and the debug lines. -/
def get_agent_conversation_pipeline (roles : AgentRolesState)
    (conversation_config : ConversationConfig)
    (from_pretrained : String → Tokenizer)
    (factory : String → List (String × PyValue) → Tool)
    (custom_instructions : Option String) :
    Except String (ConversationalAgent × AgentRolesState) × List DebugLine :=
  match get_basic_conversation_pipeline conversation_config from_pretrained factory with
  | (Except.error e, dbg) => (Except.error e, dbg)
  | (Except.ok ((generator, _tokenizer), tools_objects_map), dbg) =>
      let formatted : Except String AgentRolesState :=
        if pyTruthyStrOpt custom_instructions then
          (pyFormat roles.system_content
            [("custom_system_instructions", custom_instructions.getD ""),
             ("conversation_history", "\x7bconversation_history\x7d"),
             ("tool_names_with_descriptions", "\x7btool_names_with_descriptions\x7d")]).map
            (fun s => { system_content := s })
        else Except.ok roles
      match formatted with
      | Except.error e => (Except.error e, dbg)
      | Except.ok roles2 =>
          let tools_manager : EnhancedToolsManager :=
            { tools := tools_objects_map.map (fun p => p.2),
              debug_mode := DEBUG_MODE,
              tool_execution_history := [] }
          let memory := EnhancedConversationMemory.init generator
          (Except.ok ({ generator := generator,
                        prompt_template_system := roles2.system_content,
                        prompt_template_chat := AGENT_CONVERSATION_BASE_ROLES_content,
                        memory := memory,
                        tools_manager := tools_manager }, roles2), dbg)

/-! Concrete instances used by the witnesses and counterexamples below. -/

/-- A registered tool whose capability always raises. -/
def raisingTool : Tool :=
  { name := "flaky_search", invoke := fun _ => Except.error "connection refused" }

/-- A registered tool whose capability always returns the string "4". -/
def calculatorTool : Tool :=
  { name := "calculator", invoke := fun _ => Except.ok (PyValue.str "4") }

/-- A manager holding only the raising tool, with an empty history. -/
def c1Manager : EnhancedToolsManager :=
  { tools := [raisingTool], debug_mode := false, tool_execution_history := [] }

/-- A manager holding only the calculator tool, with debug mode on. -/
def c4Manager : EnhancedToolsManager :=
  { tools := [calculatorTool], debug_mode := true, tool_execution_history := [] }

/-- A manager holding both tools, with one pre-existing history entry. -/
def c5Manager : EnhancedToolsManager :=
  { tools := [raisingTool, calculatorTool], debug_mode := false,
    tool_execution_history := [PyValue.str "sentinel"] }

/-- A generator object standing for an already-constructed backend. -/
def sampleGenerator : Generator :=
  { generator_class := "fastrag.generators.llm.LlamaGenerator",
    kwargs := { model := "m", extra := [] }, warmed_up := true }

/-- A fresh conversation memory over that generator. -/
def c3Memory : EnhancedConversationMemory := EnhancedConversationMemory.init sampleGenerator

/-- Two tool configurations that share the registered name "search". -/
def toolCfgA : ToolConfig :=
  { type := "doc_search", params := [("name", PyValue.str "search"), ("top_k", PyValue.int 1)] }

/-- The second configuration with the same name and a different type. -/
def toolCfgB : ToolConfig :=
  { type := "web_search", params := [("name", PyValue.str "search"), ("top_k", PyValue.int 2)] }

/-- A concrete stand-in for `TOOLS_FACTORY`: the constructed tool records its
type tag as its name and its params in its behaviour. -/
def sampleFactory : String → List (String × PyValue) → Tool :=
  fun ty ps => { name := ty, invoke := fun _ => Except.ok (PyValue.dict ps) }

/-- A chat-model configuration. -/
def sampleChatModel : ChatModelConfig :=
  { generator_class := "haystack.components.generators.HuggingFaceLocalGenerator",
    generator_kwargs := { model := "microsoft/phi-2", extra := [] } }

/-- A conversation configuration with no tools section. -/
def c2Config : ConversationConfig :=
  { chat_model := sampleChatModel, tools := Option.none }

/-- A tokenizer loader returning a tokenizer that has a pad token. -/
def loadWithPad : String → Tokenizer :=
  fun s => { checkpoint := s, pad_token := Option.some "<pad>", eos_token := Option.some "</s>" }

/-- A tokenizer loader returning a tokenizer with no pad token. -/
def loadNoPad : String → Tokenizer :=
  fun s => { checkpoint := s, pad_token := Option.none, eos_token := Option.some "</s>" }

/-- The first pipeline construction with a custom instruction, started from
the module's initial template state. -/
def c2FirstCall :=
  get_agent_conversation_pipeline initialAgentRoles c2Config loadWithPad sampleFactory
    (Option.some "Be concise.")

/-- The template state left behind by the first construction. -/
def c2RolesAfter : AgentRolesState :=
  match c2FirstCall.1 with
  | Except.ok p => p.2
  | Except.error _ => initialAgentRoles

/-- The second, identical pipeline construction, which observes the state the
first one left behind. -/
def c2SecondCall :=
  get_agent_conversation_pipeline c2RolesAfter c2Config loadWithPad sampleFactory
    (Option.some "Be concise.")

/-! Theorems settling the claims. -/

/-- Claim C1, counterexample: dispatching the registered tool
"flaky_search", whose capability raises, re-raises the error to the caller
but appends NOTHING to the execution history — the history stays empty,
not "exactly one ToolExecutionRecord with status=failure" as claimed. -/
theorem execute_tool_raise_appends_no_failure_record :
    (c1Manager.execute_tool "flaky_search" [("q", PyValue.str "x")]).1 =
      Except.error (PyErr.toolError "connection refused") ∧
    (c1Manager.execute_tool "flaky_search" [("q", PyValue.str "x")]).2.1.tool_execution_history = [] :=
  ⟨rfl, rfl⟩

/-- Claim C1, amended: for every manager, tool name and kwargs on which the
underlying dispatch raises, `execute_tool` re-raises that exception and
leaves the manager — in particular its execution history — unchanged; no
failure record is created. -/
theorem execute_tool_raise_reraises_without_record (m : EnhancedToolsManager)
    (tool_name : String) (kwargs : Kwargs) (e : PyErr)
    (h : ToolsManager.execute_tool m.tools tool_name kwargs = Except.error e) :
    (m.execute_tool tool_name kwargs).1 = Except.error e ∧
    (m.execute_tool tool_name kwargs).2.1 = m := by
  simp [EnhancedToolsManager.execute_tool, h]

/-- Witness for the amended C1 theorem at a concrete raising dispatch. -/
theorem execute_tool_raise_reraises_without_record_witness :
    (c1Manager.execute_tool "flaky_search" []).1 =
      Except.error (PyErr.toolError "connection refused") ∧
    (c1Manager.execute_tool "flaky_search" []).2.1 = c1Manager :=
  execute_tool_raise_reraises_without_record c1Manager "flaky_search" []
    (PyErr.toolError "connection refused") rfl

/-- Claim C4, counterexample: a successful dispatch appends exactly the
record `\x7b"tool", "inputs", "result", "status"\x7d` — there is no
"timestamp" entry in the appended record, contrary to the claim. -/
theorem success_record_has_no_timestamp :
    (c4Manager.execute_tool "calculator" [("expr", PyValue.str "2+2")]).2.1.tool_execution_history =
      [PyValue.dict [("tool", PyValue.str "calculator"),
                     ("inputs", PyValue.dict [("expr", PyValue.str "2+2")]),
                     ("result", PyValue.str "4"),
                     ("status", PyValue.str "success")]] ∧
    dictGet (((c4Manager.execute_tool "calculator"
        [("expr", PyValue.str "2+2")]).2.1.tool_execution_history).headD PyValue.none)
      "timestamp" = Option.none :=
  ⟨rfl, rfl⟩

/-- Claim C4, amended: for every dispatch whose capability returns normally,
exactly one record holding the tool name, the inputs, the result and
status=success (but no timestamp) is appended, and the capability's result
is returned to the caller. -/
theorem execute_tool_success_appends_record (m : EnhancedToolsManager)
    (tool_name : String) (kwargs : Kwargs) (r : PyValue)
    (h : ToolsManager.execute_tool m.tools tool_name kwargs = Except.ok r) :
    (m.execute_tool tool_name kwargs).1 = Except.ok r ∧
    (m.execute_tool tool_name kwargs).2.1.tool_execution_history =
      m.tool_execution_history ++
        [PyValue.dict [("tool", PyValue.str tool_name), ("inputs", PyValue.dict kwargs),
                       ("result", r), ("status", PyValue.str "success")]] := by
  simp [EnhancedToolsManager.execute_tool, h]

/-- Witness for the amended C4 theorem at a concrete successful dispatch. -/
theorem execute_tool_success_appends_record_witness :
    (c4Manager.execute_tool "calculator" [("expr", PyValue.str "2+2")]).1 =
      Except.ok (PyValue.str "4") ∧
    (c4Manager.execute_tool "calculator" [("expr", PyValue.str "2+2")]).2.1.tool_execution_history =
      c4Manager.tool_execution_history ++
        [PyValue.dict [("tool", PyValue.str "calculator"),
                       ("inputs", PyValue.dict [("expr", PyValue.str "2+2")]),
                       ("result", PyValue.str "4"), ("status", PyValue.str "success")]] :=
  execute_tool_success_appends_record c4Manager "calculator" [("expr", PyValue.str "2+2")]
    (PyValue.str "4") rfl

/-- Claim C5, counterexample: the dispatcher attempts an invocation of the
registered tool "flaky_search" (its capability runs and raises), yet the
execution history is left exactly as it was — no record is created, so
"record created if and only if an invocation of a registered tool was
attempted" fails in the only-if-attempted direction. -/
theorem attempted_invocation_without_record :
    (c5Manager.execute_tool "flaky_search" [("q", PyValue.str "rag")]).1 =
      Except.error (PyErr.toolError "connection refused") ∧
    (c5Manager.execute_tool "flaky_search" [("q", PyValue.str "rag")]).2.1.tool_execution_history =
      [PyValue.str "sentinel"] :=
  ⟨rfl, rfl⟩

/-- Claim C5, amended: a record is appended exactly when the dispatched
capability returns successfully; dispatching an unregistered tool name (and
likewise any raising dispatch) leaves the history unchanged. -/
theorem record_created_iff_dispatch_succeeds (m : EnhancedToolsManager)
    (tool_name : String) (kwargs : Kwargs) :
    ((m.execute_tool tool_name kwargs).2.1.tool_execution_history =
      match ToolsManager.execute_tool m.tools tool_name kwargs with
      | Except.ok r => m.tool_execution_history ++
          [PyValue.dict [("tool", PyValue.str tool_name), ("inputs", PyValue.dict kwargs),
                         ("result", r), ("status", PyValue.str "success")]]
      | Except.error _ => m.tool_execution_history) ∧
    (m.tools.find? (fun t => t.name == tool_name) = Option.none →
      (m.execute_tool tool_name kwargs).2.1.tool_execution_history =
        m.tool_execution_history) := by
  constructor
  · cases h : ToolsManager.execute_tool m.tools tool_name kwargs <;>
      simp [EnhancedToolsManager.execute_tool, h]
  · intro hnone
    simp [EnhancedToolsManager.execute_tool, ToolsManager.execute_tool, hnone]

/-- Witness for the amended C5 theorem: dispatching the unregistered name
"unknown_tool" leaves the history unchanged. -/
theorem record_created_iff_dispatch_succeeds_witness :
    (c5Manager.execute_tool "unknown_tool" []).2.1.tool_execution_history =
      c5Manager.tool_execution_history :=
  (record_created_iff_dispatch_succeeds c5Manager "unknown_tool" []).2 rfl

/-- Claim C8: dispatch through managers differing only in the debug flag
produces the same outcome (returned value or raised exception) and the same
execution history; the flag only gates diagnostic output. -/
theorem debug_flag_preserves_dispatch (tools : List Tool) (history : List PyValue)
    (tool_name : String) (kwargs : Kwargs) (d : Bool) (e : Bool) :
    (EnhancedToolsManager.execute_tool ⟨tools, d, history⟩ tool_name kwargs).1 =
      (EnhancedToolsManager.execute_tool ⟨tools, e, history⟩ tool_name kwargs).1 ∧
    (EnhancedToolsManager.execute_tool ⟨tools, d, history⟩ tool_name kwargs).2.1.tool_execution_history =
      (EnhancedToolsManager.execute_tool ⟨tools, e, history⟩ tool_name kwargs).2.1.tool_execution_history := by
  cases h : ToolsManager.execute_tool tools tool_name kwargs <;>
    simp [EnhancedToolsManager.execute_tool, h]

/-- Claim C3, counterexample: one `add_interaction` call appends a turn whose
entries are exactly query, response, metadata and `system_config` (the
memory's `system_configs` mapping, empty here and never written anywhere in
the module); the turn has no `tool_calls` entry and contains no snapshot of
the tool-call history, contrary to the claim. -/
theorem turn_stores_system_config_not_tool_calls :
    (c3Memory.add_interaction "What is RAG?" "Retrieval augmented generation."
        Option.none).1.tool_history =
      [PyValue.dict [("query", PyValue.str "What is RAG?"),
                     ("response", PyValue.str "Retrieval augmented generation."),
                     ("metadata", PyValue.none),
                     ("system_config", PyValue.dict [])]] ∧
    dictGet (((c3Memory.add_interaction "What is RAG?" "Retrieval augmented generation."
        Option.none).1.tool_history).headD PyValue.none) "tool_calls" = Option.none :=
  ⟨rfl, rfl⟩

/-- Claim C3, amended: every `add_interaction(query, response, metadata)` call
appends exactly one turn capturing the query, the response, the metadata and
a reference to the memory's `system_configs` mapping — not the tool-call
history, to which the memory has no access. -/
theorem add_interaction_appends_turn (m : EnhancedConversationMemory)
    (query : String) (response : String) (metadata : Option (List (String × PyValue))) :
    (m.add_interaction query response metadata).1.tool_history =
      m.tool_history ++ [interactionTurn m.system_configs (query, response, metadata)] ∧
    (m.add_interaction query response metadata).1.system_configs = m.system_configs :=
  ⟨rfl, rfl⟩

/-- The turns list after iterated `add_interaction` calls is the old list
followed by one turn per call, in call order. -/
theorem add_interactions_turns (items : List (String × String × Option (List (String × PyValue))))
    (m : EnhancedConversationMemory) :
    (m.add_interactions items).tool_history =
      m.tool_history ++ items.map (interactionTurn m.system_configs) := by
  induction items generalizing m with
  | nil => simp [EnhancedConversationMemory.add_interactions]
  | cons it rest ih =>
      simp [EnhancedConversationMemory.add_interactions,
            EnhancedConversationMemory.add_interaction, ih, interactionTurn]

/-- Claim C7: conversation memory is append-only — each `add_interaction`
call adds exactly one turn, existing turns are neither removed nor
reordered, and after K calls the turn count has grown by exactly K. -/
theorem memory_append_only (m : EnhancedConversationMemory)
    (items : List (String × String × Option (List (String × PyValue)))) :
    (m.add_interactions items).tool_history =
      m.tool_history ++ items.map (interactionTurn m.system_configs) ∧
    (m.add_interactions items).tool_history.length =
      m.tool_history.length + items.length := by
  refine ⟨add_interactions_turns items m, ?_⟩
  rw [add_interactions_turns items m]
  simp

/-- Claim C6, counterexample: building the tool map from two configurations
that both register the name "search" succeeds (no DuplicateNameError is
possible) and yields a single entry holding the SECOND tool — the first
registration was silently replaced. -/
theorem duplicate_tool_name_silently_replaced :
    ((buildToolsObjectsMap sampleFactory [toolCfgA, toolCfgB] []).toOption.map
        (fun m => m.map (fun p => (p.1, p.2.name)))) =
      Option.some [("search", "web_search")] :=
  rfl

/-- Claim C6, amended: assigning a tool under a name already present in the
map replaces that entry in place — the stored tool becomes the new one and no
new entry is added — while an absent name appends a new entry; no error is
raised in either case. -/
theorem dict_assignment_replaces_in_place {α : Type} (m : List (String × α))
    (k : String) (v : α) :
    listLookup (dictInsert m k v) k = Option.some v ∧
    (dictInsert m k v).length =
      (if m.any (fun p => p.1 == k) then m.length else m.length + 1) := by
  induction m with
  | nil => simp [dictInsert, listLookup]
  | cons p rest ih =>
      obtain ⟨a, b⟩ := p
      by_cases h : a == k
      · simp [dictInsert, listLookup, h]
      · have h2 : dictInsert ((a, b) :: rest) k v = (a, b) :: dictInsert rest k v := by
          simp [dictInsert, h]
        constructor
        · rw [h2]
          simpa [listLookup, List.find?, h] using ih.1
        · rw [h2, List.length_cons, ih.2]
          simp only [List.any_cons, h, Bool.false_or]
          by_cases h3 : rest.any (fun q => q.1 == k) <;> simp [h3]

/-- Claim C9: `get_generator` builds its stopping criterion over exactly the
markers "Observation:", "<|eot_id|>", "<|end|>", yet returns exactly the pair
of the generator — constructed from `generator_kwargs` alone, with no
stopping-criteria argument — and the (pad-fixed) tokenizer. -/
theorem get_generator_discards_stopping_criteria (cfg : ChatModelConfig)
    (from_pretrained : String → Tokenizer) :
    ((get_generator_stopping_criteria ((get_generator cfg from_pretrained).1.2)).map
        (fun sw => sw.stop_words)) = [["Observation:", "<|eot_id|>", "<|end|>"]] ∧
    (get_generator cfg from_pretrained).1.1 =
      { generator_class := cfg.generator_class, kwargs := cfg.generator_kwargs,
        warmed_up := true } :=
  ⟨rfl, rfl⟩

/-- Claim C10: when the loaded tokenizer's pad token is falsy (absent), the
tokenizer `get_generator` returns has its pad token set to its eos token;
when a pad token is present, the tokenizer is returned unchanged. -/
theorem get_generator_pad_token_fallback (cfg : ChatModelConfig)
    (from_pretrained : String → Tokenizer) :
    (pyTruthyStrOpt (from_pretrained cfg.generator_kwargs.model).pad_token = false →
      (get_generator cfg from_pretrained).1.2 =
        { from_pretrained cfg.generator_kwargs.model with
            pad_token := (from_pretrained cfg.generator_kwargs.model).eos_token }) ∧
    (pyTruthyStrOpt (from_pretrained cfg.generator_kwargs.model).pad_token = true →
      (get_generator cfg from_pretrained).1.2 =
        from_pretrained cfg.generator_kwargs.model) := by
  constructor <;> intro h <;> simp [get_generator, h]

/-- Witness for the C10 theorem: a loader with no pad token gets the eos
token as pad token; a loader with a pad token is returned unchanged. -/
theorem get_generator_pad_token_fallback_witness :
    ((get_generator sampleChatModel loadNoPad).1.2 =
      { loadNoPad sampleChatModel.generator_kwargs.model with
          pad_token := (loadNoPad sampleChatModel.generator_kwargs.model).eos_token }) ∧
    ((get_generator sampleChatModel loadWithPad).1.2 =
      loadWithPad sampleChatModel.generator_kwargs.model) :=
  ⟨(get_generator_pad_token_fallback sampleChatModel loadNoPad).1 rfl,
   (get_generator_pad_token_fallback sampleChatModel loadWithPad).2 rfl⟩

/-- Claim C2, amended: pipeline construction is free of template side effects
only when no (or an empty, hence falsy) custom instruction is supplied — in
that case the module's role-template state is returned unchanged, whatever it
was; a nonempty custom instruction instead rewrites the global system
template in place, so later invocations depend on earlier ones (see the
counterexample). -/
theorem pipeline_without_custom_instructions_is_pure (roles : AgentRolesState)
    (conversation_config : ConversationConfig) (from_pretrained : String → Tokenizer)
    (factory : String → List (String × PyValue) → Tool)
    (custom_instructions : Option String)
    (h : pyTruthyStrOpt custom_instructions = false) :
    (get_agent_conversation_pipeline roles conversation_config from_pretrained factory
        custom_instructions).1.map (fun p => p.2) =
      (get_agent_conversation_pipeline roles conversation_config from_pretrained factory
        custom_instructions).1.map (fun _ => roles) := by
  rcases hb : get_basic_conversation_pipeline conversation_config from_pretrained factory
    with ⟨res, dbg⟩
  cases res <;> simp [get_agent_conversation_pipeline, hb, h, Except.map]

/-- Witness for the amended C2 theorem: with `custom_instructions = None` the
construction hands back the initial template state unchanged. -/
theorem pipeline_without_custom_instructions_is_pure_witness :
    (get_agent_conversation_pipeline initialAgentRoles c2Config loadWithPad sampleFactory
        Option.none).1.map (fun p => p.2) =
      (get_agent_conversation_pipeline initialAgentRoles c2Config loadWithPad sampleFactory
        Option.none).1.map (fun _ => initialAgentRoles) :=
  pipeline_without_custom_instructions_is_pure initialAgentRoles c2Config loadWithPad
    sampleFactory Option.none rfl

set_option maxRecDepth 400000 in
/-- Claim C2, counterexample: starting from the module's initial template
state, one pipeline construction with the custom instruction "Be concise."
succeeds but hands back a changed system role template (already its first 140
characters differ: the placeholder was replaced by the instruction text);
repeating the very same invocation on the resulting state then raises a
KeyError (the doubled-brace JSON example of the first pass is re-scanned as a
replacement field), so the outcome depends on the prior invocation. -/
theorem template_substitution_mutates_roles :
    (match c2FirstCall.1 with | Except.ok _ => true | Except.error _ => false) = true ∧
    (String.mk (c2RolesAfter.system_content.data.take 140) ==
       String.mk (AGENT_SYSTEM_ROLES_content.data.take 140)) = false ∧
    (match c2SecondCall.1 with | Except.ok _ => false | Except.error _ => true) = true :=
  ⟨rfl, rfl, rfl⟩

end FastRAG
